import Mathlib

set_option maxRecDepth 100000

/-!
Verification of the PromptLane SDK resource-dispatch core.

The definitions below are a shallow embedding of the Python sources:

* `promptlane_sdk/database/connection.py` (identifier parsing, row lookup,
  update/delete semantics),
* `promptlane_sdk/api/connection.py` (HTTP status to error mapping),
* `promptlane_sdk/core/utils/decorators.py` (the `api_write_only` wrapper),
* `promptlane_sdk/core/resources/*.py` (per-resource backend dispatch).

Machine-level details that the claims do not touch (HTTP transport, SQL
execution, pydantic validation of well-formed field values) are abstracted;
everything the claims do touch is translated statement by statement.
-/

/-! ## Python string primitives used by `uuid.UUID(hex)`

`DatabaseConnection.get/update/delete` decide between an id lookup and a key
lookup by attempting `uuid.UUID(id_or_key)`.  CPython does:
`hex = hex.replace("urn:", "").replace("uuid:", "")`;
`hex = hex.strip("\x7b\x7d").replace("-", "")`; reject unless `len(hex) == 32`;
`int(hex, 16)`; reject unless `0 <= value < 2 ** 128`.
We model each of those steps.  `int(x, 16)` accepts surrounding ASCII
whitespace, an optional sign, an optional `0x`/`0X` prefix and single
underscores between digits; non-ASCII digit forms are not modelled. -/

/-- ASCII whitespace accepted by Python `int()` around a numeral. -/
def pyIsSpace (c : Char) : Bool :=
  c == ' ' || c == '\t' || c == '\n' || c == '\r' || c.toNat == 11 || c.toNat == 12

/-- Value of a hexadecimal digit, `none` for any other character. -/
def hexVal? (c : Char) : Option Nat :=
  if '0' ≤ c ∧ c ≤ '9' then some (c.toNat - 48)
  else if 'a' ≤ c ∧ c ≤ 'f' then some (c.toNat - 97 + 10)
  else if 'A' ≤ c ∧ c ≤ 'F' then some (c.toNat - 65 + 10)
  else none

/-- Does the first list start with the second one? -/
def listStartsWith : List Char → List Char → Bool
  | _, [] => true
  | [], _ :: _ => false
  | a :: as, b :: bs => a == b && listStartsWith as bs

/-- Fuel-indexed worker for `pyReplace`; replaces non-overlapping occurrences
left to right, the way Python `str.replace` does. -/
def pyReplaceGo (pat rep : List Char) : Nat → List Char → List Char
  | 0, cs => cs
  | _ + 1, [] => []
  | n + 1, c :: cs =>
    if listStartsWith (c :: cs) pat then
      rep ++ pyReplaceGo pat rep n ((c :: cs).drop pat.length)
    else
      c :: pyReplaceGo pat rep n cs

/-- Python `s.replace(pat, rep)` for a non-empty pattern (the only way the SDK
calls it): every non-overlapping occurrence is replaced, scanning left to
right. -/
def pyReplace (s pat rep : String) : String :=
  if pat.data.isEmpty then s
  else { data := pyReplaceGo pat.data rep.data s.data.length s.data }

/-- Python `s.strip("\x7b\x7d")`: remove every leading and trailing brace. -/
def pyStripBraces (s : String) : String :=
  let isBrace : Char → Bool := fun c => c.toNat == 123 || c.toNat == 125
  { data := ((s.data.dropWhile isBrace).reverse.dropWhile isBrace).reverse }

/-- Strip ASCII whitespace from both ends, as `int()` does before parsing. -/
def pyStripWs (cs : List Char) : List Char :=
  ((cs.dropWhile pyIsSpace).reverse.dropWhile pyIsSpace).reverse

/-- Hex digit run with single underscores between digits.  `usOk` records
whether an underscore may appear here (it must follow a digit or the `0x`
prefix and be followed by a digit); `seenDigit` requires a non-empty run. -/
def pyHexDigitsVal : List Char → Nat → Bool → Bool → Option Nat
  | [], acc, usOk, seenDigit => if seenDigit && usOk then some acc else none
  | c :: rest, acc, usOk, seenDigit =>
    if c == '_' then
      if usOk then pyHexDigitsVal rest acc false seenDigit else none
    else
      match hexVal? c with
      | some v => pyHexDigitsVal rest (acc * 16 + v) true true
      | none => none

/-- Python `int(s, 16)`: optional surrounding whitespace, optional sign,
optional `0x`/`0X` prefix, then hex digits with single underscores. -/
def pyIntHexParse (s : String) : Option Int :=
  let cs := pyStripWs s.data
  let signed : Int × List Char :=
    match cs with
    | '+' :: rest => (1, rest)
    | '-' :: rest => (-1, rest)
    | _ => (1, cs)
  let sign := signed.1
  let cs2 := signed.2
  match cs2 with
  | '0' :: c :: rest =>
    if c == 'x' || c == 'X' then (pyHexDigitsVal rest 0 true false).map (fun n => sign * n)
    else (pyHexDigitsVal cs2 0 false false).map (fun n => sign * n)
  | _ => (pyHexDigitsVal cs2 0 false false).map (fun n => sign * n)

/-- Python `uuid.UUID(id_or_key)` reduced to its accepted/rejected outcome:
`some v` is a well-formed UUID with 128-bit value `v`, `none` raises
`ValueError`.  Mirrors the CPython constructor steps listed above. -/
def pyUUIDParse (s : String) : Option Nat :=
  let hex := pyReplace (pyReplace s "urn:" "") "uuid:" ""
  let hex := pyStripBraces hex
  let hex := pyReplace hex "-" ""
  if hex.length = 32 then
    match pyIntHexParse hex with
    | some v => if 0 ≤ v ∧ v < 2 ^ 128 then some v.toNat else none
    | none => none
  else none

/-! ## Exceptions

One inductive covers the Python exception classes the SDK raises or catches:
`api/exceptions.py` defines `APIError` and its subclasses `AuthenticationError`,
`NotFoundError`, `ValidationError`, `RateLimitError`; `ValueError` and
`TypeError` are builtins; `jsonDecode` stands for the `ValueError`
(`json.JSONDecodeError`) raised by `response.json()`. -/

inductive Exc
  | valueError (msg : String)
  | typeError (msg : String)
  | jsonDecode (msg : String)
  | authentication (msg : String)
  | notFound (msg : String)
  | validation (msg : String)
  | rateLimit (msg : String)
  | apiError (msg : String)
  | otherError (msg : String)
deriving DecidableEq, Repr

deriving instance DecidableEq for Except

/-- The exceptions that are instances of `APIError` (class hierarchy of
`api/exceptions.py`). -/
def Exc.isAPIError : Exc → Bool
  | .authentication _ => true
  | .notFound _ => true
  | .validation _ => true
  | .rateLimit _ => true
  | .apiError _ => true
  | _ => false

/-- The three kinds the `api_write_only` wrapper re-raises under the same
class (everything else becomes a plain `APIError`). -/
def Exc.isSpecific : Exc → Bool
  | .authentication _ => true
  | .validation _ => true
  | .notFound _ => true
  | _ => false

/-! ## Database backend (`database/connection.py`)

A table is a list of rows.  A row carries the `id` column (the 128-bit value
of its UUID), the human-readable `key` column, and `val`, which stands for the
remaining data columns collectively.  `get`, `update` and `delete` all contain
the same `try: uuid.UUID(id_or_key) ... except ValueError:` dispatch; `update`
is `UPDATE ... WHERE cond` followed by `SELECT ... WHERE cond` and
`dict(fetchone())`, and `delete` reports `rowcount > 0`. -/

structure DBRow where
  id : Nat
  key : String
  val : Nat
deriving DecidableEq, Repr

/-- A SQLAlchemy lookup condition: either `table.c.id == uuid_obj` or
`table.c.key == id_or_key`. -/
inductive RowCond
  | byId (u : Nat)
  | byKey (k : String)
deriving DecidableEq, Repr

/-- The shared `try uuid.UUID(id_or_key) / except ValueError` dispatch of
`DatabaseConnection.get`, `.update` and `.delete`: identifier parsing is
attempted first, key lookup happens only when it raises. -/
def lookupCond (idOrKey : String) : RowCond :=
  match pyUUIDParse idOrKey with
  | some u => .byId u
  | none => .byKey idOrKey

/-- Whether a row satisfies a lookup condition. -/
def condMatches (c : RowCond) (r : DBRow) : Bool :=
  match c with
  | .byId u => r.id == u
  | .byKey k => r.key == k

/-- `DatabaseConnection.get`: `SELECT ... WHERE cond` and `fetchone()`;
`None` becomes `none`, otherwise the row is returned. -/
def dbGet (table : List DBRow) (idOrKey : String) : Option DBRow :=
  table.find? (condMatches (lookupCond idOrKey))

/-- `DatabaseConnection.update`: set the data columns of every row matching
the condition, re-select the row, then `self._row_to_model(dict(updated_row))`.
When no row matches, `fetchone()` is `None` and `dict(None)` raises a
`TypeError`. -/
def dbUpdate (table : List DBRow) (idOrKey : String) (newVal : Nat) :
    Except Exc (List DBRow × DBRow) :=
  let cond := lookupCond idOrKey
  let updated := table.map fun r => if condMatches cond r then { r with val := newVal } else r
  match updated.find? (condMatches cond) with
  | none => .error (.typeError "cannot convert dictionary update sequence element: argument of type NoneType")
  | some r => .ok (updated, r)

/-- `DatabaseConnection.delete`: remove every matching row and return
`rowcount > 0`. -/
def dbDelete (table : List DBRow) (idOrKey : String) : List DBRow × Bool :=
  let cond := lookupCond idOrKey
  (table.filter (fun r => !condMatches cond r), decide (0 < (table.filter (condMatches cond)).length))

/-! ## Prompt versioning (`core/resources/prompts.py`)

Prompt rows keep the columns the versioning logic touches: `id`, `key` and the
self-referential `parent_id`.  `Prompts.get_versions` and
`Prompts.create_version` run their database branch only when
`self.db and not self.mixed_mode`; otherwise they delegate to the
`prompts/{id}/versions` API endpoint. -/

structure PromptRow where
  id : Nat
  key : String
  parent_id : Option Nat
deriving DecidableEq, Repr

/-- Fields of `PromptCreate` that the versioning logic reads or writes: the
`key` stands for all caller-supplied fields, `parent_id` is the lineage
link (`create_version` overwrites it before inserting). -/
structure PromptCreateData where
  key : String
  parent_id : Option Nat
deriving DecidableEq, Repr

/-- `DatabaseConnection.get` on the `prompts` table (same id-then-key lookup
as `dbGet`, returning prompt rows). -/
def dbGetPrompt (table : List PromptRow) (idOrKey : String) : Option PromptRow :=
  match lookupCond idOrKey with
  | .byId u => table.find? fun r => r.id == u
  | .byKey k => table.find? fun r => r.key == k

/-- `DatabaseConnection.list("prompts", Prompt, parent_id=root_id)`: the SQL
filter `prompts.parent_id == root_id` (a NULL `parent_id` never matches). -/
def dbListByParent (table : List PromptRow) (rootId : Nat) : List PromptRow :=
  table.filter fun r => r.parent_id == some rootId

/-- `Prompts.get_versions`, database branch: fetch the prompt, take
`prompt.parent_id or prompt.id` as the lineage root, then list the prompts
whose `parent_id` equals that root.  A missing prompt makes
`prompt.parent_id` an attribute access on `None`, which raises. -/
def getVersionsDb (table : List PromptRow) (idOrKey : String) :
    Except Exc (List PromptRow) :=
  match dbGetPrompt table idOrKey with
  | none => .error (.typeError "NoneType object has no attribute parent_id")
  | some p =>
    let rootId := p.parent_id.getD p.id
    .ok (dbListByParent table rootId)

/-- `DatabaseConnection.create` on `prompts`: the insert (with the generated
`id`, passed here as `freshId` in place of `uuid4()`) followed by
`SELECT ... WHERE id == values["id"]` and `fetchone()`. -/
def dbCreatePrompt (table : List PromptRow) (d : PromptCreateData) (freshId : Nat) :
    List PromptRow × Option PromptRow :=
  let row : PromptRow := { id := freshId, key := d.key, parent_id := d.parent_id }
  let inserted := table ++ [row]
  (inserted, inserted.find? fun r => r.id == freshId)

/-- Outcome of `Prompts.create_version` for a given connection pair. -/
inductive CreateVersionOutcome
  | apiDelegated (path : String)
  | dbCreated (newTable : List PromptRow) (created : Option PromptRow)
  | dbParentMissing
deriving DecidableEq, Repr

/-- `Prompts.create_version`: under API or mixed mode, POST to the dedicated
`prompts/{id}/versions` endpoint; under database mode, fetch the parent,
set `data.parent_id = parent.id`, and insert. -/
def createVersion (db api : Bool) (table : List PromptRow) (idOrKey : String)
    (d : PromptCreateData) (freshId : Nat) : CreateVersionOutcome :=
  if (db && api) || !db then .apiDelegated ("prompts/" ++ idOrKey ++ "/versions")
  else
    match dbGetPrompt table idOrKey with
    | none => .dbParentMissing
    | some parent =>
      let d2 := { d with parent_id := some parent.id }
      let created := dbCreatePrompt table d2 freshId
      .dbCreated created.1 created.2

/-! ## HTTP backend response handling (`api/connection.py`)

`APIConnection._handle_response` first calls `response.raise_for_status()`,
which raises exactly for status codes 400-599.  Inside its handler the code
runs `error_data = response.json()` and
`error_detail = error_data.get("detail") or error_data.get("message")`,
catching only `(ValueError, json.JSONDecodeError)` (then
`error_detail = response.text`); when the body is valid JSON but not an
object, `error_data.get` raises an `AttributeError` that escapes
`_handle_response` uncaught.  On the non-raising path `response.json()` is
parsed (a `ValueError` on a non-JSON body) and, when a model class is
expected, the data is converted (`expected_model_class(**...)`, lines
129-138), a step that can itself fail; it is a parameter here since it
depends on the pydantic model bound at the call site. -/

inductive JsonVal
  | jnull
  | jbool (b : Bool)
  | jnum (n : Int)
  | jstr (s : String)
  | jarr (elems : List JsonVal)
  | jobj (fields : List (String × JsonVal))

/-- Python truthiness of a parsed JSON value (`None`, `False`, `0`, `""`,
`[]` and an empty dict are falsy). -/
def JsonVal.pyTruthy : JsonVal → Bool
  | .jnull => false
  | .jbool b => b
  | .jnum n => n != 0
  | .jstr s => !s.isEmpty
  | .jarr elems => !elems.isEmpty
  | .jobj fields => !fields.isEmpty

/-- The Python type name of a parsed JSON value, as it appears in the
`AttributeError` text. -/
def JsonVal.pyTypeName : JsonVal → String
  | .jnull => "NoneType"
  | .jbool _ => "bool"
  | .jnum _ => "int"
  | .jstr _ => "str"
  | .jarr _ => "list"
  | .jobj _ => "dict"

/-- Python `dict.get(k)` on a parsed JSON object: a missing field gives
`None`, indistinguishable from a field holding JSON `null`. -/
def jsonObjGet (fields : List (String × JsonVal)) (k : String) : JsonVal :=
  match fields.find? (fun f => f.1 == k) with
  | some f => f.2
  | none => .jnull

/-- Python `a or b` on parsed JSON values. -/
def pyOrJson (a b : JsonVal) : JsonVal :=
  if a.pyTruthy then a else b

structure ApiResponse where
  status : Nat
  jsonBody : Option JsonVal
  text : String
  reason : String

/-- The outcomes of `_handle_response`.  The four named kinds and the generic
`apiFailure` carry the argument Python passes to the exception constructor
unrendered: `error_detail or <default>` for the named kinds, and for the
generic branch the components of
`f"API error: {status_code} - {error_detail or response.reason}"`.
`jsonDecode` is the `ValueError` from `response.json()` on the non-raising
path; `attributeErr` is the uncaught `AttributeError` from
`error_data.get` on a non-object JSON body; `conversion` stands for a
failure (pydantic `ValidationError`, `TypeError`, ...) inside model-class
conversion of a successful response. -/
inductive RespErr
  | authentication (detail : JsonVal)
  | notFound (detail : JsonVal)
  | validation (detail : JsonVal)
  | rateLimit (detail : JsonVal)
  | apiFailure (status : Nat) (detail : JsonVal)
  | jsonDecode (text : String)
  | attributeErr (msg : String)
  | conversion (msg : String)

/-- The detail extraction of the except-`HTTPError` handler (lines 104-112):
`response.text` when the body is not valid JSON (the caught `ValueError`),
the `detail`-or-`message` chain when it is a JSON object, and the escaping
`AttributeError` when it is valid JSON of any other shape. -/
def errorDetail (r : ApiResponse) : Except RespErr JsonVal :=
  match r.jsonBody with
  | none => .ok (.jstr r.text)
  | some (.jobj fields) =>
    .ok (pyOrJson (jsonObjGet fields "detail") (jsonObjGet fields "message"))
  | some v => .error (.attributeErr (v.pyTypeName ++ " object has no attribute get"))

/-- `APIConnection._handle_response`: `raise_for_status` fires exactly for
statuses 400-599; its handler extracts the detail (an escaping
`AttributeError` aborts the mapping) and picks the exception class by
status; otherwise the body is JSON-parsed and handed to the model
conversion `convert` (the identity `Except.ok` when no model class is
expected). -/
def handleResponse (convert : JsonVal → Except RespErr JsonVal) (r : ApiResponse) :
    Except RespErr JsonVal :=
  if 400 ≤ r.status ∧ r.status < 600 then
    match errorDetail r with
    | .error e => .error e
    | .ok d =>
      if r.status = 401 ∨ r.status = 403 then
        .error (.authentication (pyOrJson d (.jstr "Authentication failed")))
      else if r.status = 404 then
        .error (.notFound (pyOrJson d (.jstr "Resource not found")))
      else if r.status = 422 then
        .error (.validation (pyOrJson d (.jstr "Validation error")))
      else if r.status = 429 then
        .error (.rateLimit (pyOrJson d (.jstr "Rate limit exceeded")))
      else
        .error (.apiFailure r.status (pyOrJson d (.jstr r.reason)))
  else
    match r.jsonBody with
    | none => .error (.jsonDecode r.text)
    | some data => convert data

/-! ## The `api_write_only` wrapper (`core/utils/decorators.py`)

The wrapper first checks `self.api`; without it, it raises a `ValueError`
before the wrapped method runs.  With it, the wrapped call executes and each
raised exception is re-raised following the except-chain:
`AuthenticationError`, `ValidationError` and `NotFoundError` keep their class
and gain the operation name, any other `APIError` (including
`RateLimitError`) becomes a plain `APIError`, and any other exception becomes
a plain `APIError` with an "Unexpected error" message. -/

/-- The except-chain re-tagging of `api_write_only` (the `str(e)` of each
modelled exception is its message). -/
def retagExc (op : String) (e : Exc) : Exc :=
  match e with
  | .authentication m => .authentication ("Failed to authenticate when performing " ++ op ++ ": " ++ m)
  | .validation m => .validation ("Invalid data for " ++ op ++ ": " ++ m)
  | .notFound m => .notFound ("Resource not found in " ++ op ++ ": " ++ m)
  | .rateLimit m => .apiError ("API error occurred during " ++ op ++ ": " ++ m)
  | .apiError m => .apiError ("API error occurred during " ++ op ++ ": " ++ m)
  | .valueError m => .apiError ("Unexpected error during " ++ op ++ ": " ++ m)
  | .typeError m => .apiError ("Unexpected error during " ++ op ++ ": " ++ m)
  | .jsonDecode m => .apiError ("Unexpected error during " ++ op ++ ": " ++ m)
  | .otherError m => .apiError ("Unexpected error during " ++ op ++ ": " ++ m)

/-- The `ValueError` message raised when no API connection exists. -/
def apiRequiredMsg (op : String) : String :=
  "API connection is required for " ++ op ++ ". Please initialize the client with an API connection."

/-- The `api_write_only` wrapper around a wrapped call whose outcome is
`body`. -/
def apiWriteOnly (hasApi : Bool) (op : String) (body : Except Exc Unit) : Except Exc Unit :=
  if hasApi = false then .error (.valueError (apiRequiredMsg op))
  else
    match body with
    | .ok v => .ok v
    | .error e => .error (retagExc op e)

/-! ## Write-through resources (`core/resources/teams.py`, `users.py`)

Every write method of `Teams` and `Users` carries `@api_write_only` and a
body that only touches `self.api`.  A run records the backend invocations
that actually execute plus the pre-wrapper outcome.  `Teams.remove_member`
calls `self.api.delete(...)` with a single argument although
`APIConnection.delete(self, resource_path, resource_id)` requires two, so the
call raises a `TypeError` at binding time and the HTTP delete never runs. -/

inductive BackendCall
  | apiCall (meth : String) (path : String)
  | dbCall (table : String)
deriving DecidableEq, Repr

/-- Is the call an invocation of the API backend? -/
def BackendCall.isApi : BackendCall → Bool
  | .apiCall _ _ => true
  | .dbCall _ => false

/-- Is the call an invocation of the database backend? -/
def BackendCall.isDb : BackendCall → Bool :=
  fun c => !c.isApi

/-- One resource-method execution: the backend calls that ran, and the
outcome seen by the caller. -/
structure MethodRun where
  calls : List BackendCall
  result : Except Exc Unit
deriving DecidableEq, Repr

/-- A write method under `api_write_only`: without an API connection the
wrapper raises before the body runs (no backend call happens); with one, the
body runs and its exception, if any, is re-tagged. -/
def runWriteThru (hasApi : Bool) (op : String) (bodyCalls : List BackendCall)
    (bodyResult : Except Exc Unit) : MethodRun :=
  if hasApi = false then { calls := [], result := .error (.valueError (apiRequiredMsg op)) }
  else { calls := bodyCalls, result := apiWriteOnly hasApi op bodyResult }

/-- The write methods of the two write-through resources. -/
inductive WTMethod
  | tCreate
  | tUpdate
  | tDelete
  | tAddMember
  | tRemoveMember
  | tUpdateMemberRole
  | uCreate
  | uUpdate
  | uDelete
  | uInvite
  | uActivate
  | uDeactivate
  | uChangePassword
deriving DecidableEq, Repr

/-- `method.__name__`, used by the wrapper in its messages. -/
def wtOpName : WTMethod → String
  | .tCreate => "create"
  | .tUpdate => "update"
  | .tDelete => "delete"
  | .tAddMember => "add_member"
  | .tRemoveMember => "remove_member"
  | .tUpdateMemberRole => "update_member_role"
  | .uCreate => "create"
  | .uUpdate => "update"
  | .uDelete => "delete"
  | .uInvite => "invite"
  | .uActivate => "activate"
  | .uDeactivate => "deactivate"
  | .uChangePassword => "change_password"

/-- The backend calls each method body issues (paths as built by
`APIConnection.list/get/create/update/delete`; `a` and `b` are the id-like
arguments).  `update_member_role` passes `resource_id=""`, hence its trailing
slash; `remove_member` issues no call because the mis-arity `TypeError` fires
first. -/
def wtBodyCalls (m : WTMethod) (a b : String) : List BackendCall :=
  match m with
  | .tCreate => [.apiCall "POST" "teams"]
  | .tUpdate => [.apiCall "PUT" ("teams/" ++ a)]
  | .tDelete => [.apiCall "DELETE" ("teams/" ++ a)]
  | .tAddMember => [.apiCall "POST" ("teams/" ++ a ++ "/members")]
  | .tRemoveMember => []
  | .tUpdateMemberRole => [.apiCall "PUT" ("teams/" ++ a ++ "/members/" ++ b ++ "/")]
  | .uCreate => [.apiCall "POST" "users"]
  | .uUpdate => [.apiCall "PUT" ("users/" ++ a)]
  | .uDelete => [.apiCall "DELETE" ("users/" ++ a)]
  | .uInvite => [.apiCall "POST" "users/invite"]
  | .uActivate => [.apiCall "POST" ("users/" ++ a ++ "/activate")]
  | .uDeactivate => [.apiCall "POST" ("users/" ++ a ++ "/deactivate")]
  | .uChangePassword => [.apiCall "POST" ("users/" ++ a ++ "/change-password")]

/-- Pre-wrapper outcome of each body when the HTTP layer itself succeeds:
only `remove_member` fails, with the Python arity `TypeError`. -/
def wtBodyResult (m : WTMethod) : Except Exc Unit :=
  match m with
  | .tRemoveMember => .error (.typeError "delete() missing 1 required positional argument: resource_id")
  | _ => .ok ()

/-- A write-through method run against a connection pair.  `dbPresent` is
carried to state mixed-mode facts; the bodies never consult it, exactly as in
the source. -/
def wtRun (m : WTMethod) (_dbPresent hasApi : Bool) (a b : String) : MethodRun :=
  runWriteThru hasApi (wtOpName m) (wtBodyCalls m a b) (wtBodyResult m)

/-- All thirteen write methods. -/
def wtMethods : List WTMethod :=
  [.tCreate, .tUpdate, .tDelete, .tAddMember, .tRemoveMember, .tUpdateMemberRole,
   .uCreate, .uUpdate, .uDelete, .uInvite, .uActivate, .uDeactivate, .uChangePassword]

/-! ## Standard resource dispatch (`core/resources/base.py` and subclasses)

`ResourceMixin.list/get` route with
`if self.db and not (self.mixed_mode and kwargs.get("force_api", False))`;
`create/update/delete` with `if self.mixed_mode or not self.db`.
`Projects`, `Prompts` and `Activities` inherit these methods unchanged, but
`Activities` defines no `create_model_class` / `update_model_class`, so its
inherited `create` and `update` call `None(**kwargs)` — a `TypeError` —
before any routing happens. -/

/-- Which backend a read is sent to. -/
inductive Route
  | dbR
  | apiR
deriving DecidableEq, Repr

/-- `ResourceBase.mixed_mode = bool(db and api)`. -/
def mixedMode (db api : Bool) : Bool := db && api

/-- `ResourceMixin.list` routing. -/
def listRoute (db api forceApi : Bool) : Route :=
  if db && !(mixedMode db api && forceApi) then .dbR else .apiR

/-- `ResourceMixin.get` routing (same guard as `list`). -/
def getRoute (db api forceApi : Bool) : Route :=
  if db && !(mixedMode db api && forceApi) then .dbR else .apiR

/-- The three standard resources. -/
inductive StdResource
  | projects
  | prompts
  | activities
deriving DecidableEq, Repr

/-- `resource_name` of each standard resource. -/
def stdResName : StdResource → String
  | .projects => "projects"
  | .prompts => "prompts"
  | .activities => "activities"

/-- Does the class define `create_model_class`?  `Activities` does not. -/
def stdHasCreateModel : StdResource → Bool
  | .activities => false
  | _ => true

/-- Does the class define `update_model_class`?  `Activities` does not. -/
def stdHasUpdateModel : StdResource → Bool
  | .activities => false
  | _ => true

/-- `ResourceMixin.create`: build the create model (a `TypeError` when the
class is `None`), then route by `self.mixed_mode or not self.db`. -/
def stdCreateRun (r : StdResource) (db api : Bool) : MethodRun :=
  if stdHasCreateModel r = false then
    { calls := [], result := .error (.typeError "NoneType object is not callable") }
  else if mixedMode db api || !db then
    { calls := [.apiCall "POST" (stdResName r)], result := .ok () }
  else
    { calls := [.dbCall (stdResName r)], result := .ok () }

/-- `ResourceMixin.update`: build the update model, then route. -/
def stdUpdateRun (r : StdResource) (db api : Bool) (rid : String) : MethodRun :=
  if stdHasUpdateModel r = false then
    { calls := [], result := .error (.typeError "NoneType object is not callable") }
  else if mixedMode db api || !db then
    { calls := [.apiCall "PUT" (stdResName r ++ "/" ++ rid)], result := .ok () }
  else
    { calls := [.dbCall (stdResName r)], result := .ok () }

/-- `ResourceMixin.delete`: route by `self.mixed_mode or not self.db`. -/
def stdDeleteRun (r : StdResource) (db api : Bool) (rid : String) : MethodRun :=
  if mixedMode db api || !db then
    { calls := [.apiCall "DELETE" (stdResName r ++ "/" ++ rid)], result := .ok () }
  else
    { calls := [.dbCall (stdResName r)], result := .ok () }

/-! ## Resource-specific read extensions

All five check `if self.db and not self.mixed_mode`, so their database branch
runs only in pure-database mode; in API and in mixed mode they call the API.
`get_versions` issues two database queries in its database branch (the parent
fetch and the filtered list); `get_team_members` / `get_user_teams` run a
join query over the membership relation. -/

/-- `Projects.get_prompts`. -/
def projectsGetPromptsRun (db api : Bool) (pid : String) : MethodRun :=
  if db && !(mixedMode db api) then
    { calls := [.dbCall "prompts"], result := .ok () }
  else
    { calls := [.apiCall "GET" ("projects/" ++ pid ++ "/prompts")], result := .ok () }

/-- `Prompts.get_versions` (routing level). -/
def promptsGetVersionsRun (db api : Bool) (pid : String) : MethodRun :=
  if db && !(mixedMode db api) then
    { calls := [.dbCall "prompts", .dbCall "prompts"], result := .ok () }
  else
    { calls := [.apiCall "GET" ("prompts/" ++ pid ++ "/versions")], result := .ok () }

/-- `Teams.get_members`. -/
def teamsGetMembersRun (db api : Bool) (tid : String) : MethodRun :=
  if db && !(mixedMode db api) then
    { calls := [.dbCall "users JOIN team_members"], result := .ok () }
  else
    { calls := [.apiCall "GET" ("teams/" ++ tid ++ "/members")], result := .ok () }

/-- `Users.get_teams`. -/
def usersGetTeamsRun (db api : Bool) (uid : String) : MethodRun :=
  if db && !(mixedMode db api) then
    { calls := [.dbCall "teams JOIN team_members"], result := .ok () }
  else
    { calls := [.apiCall "GET" ("users/" ++ uid ++ "/teams")], result := .ok () }

/-- `Activities.list_for_user`. -/
def activitiesListForUserRun (db api : Bool) (uid : String) : MethodRun :=
  if db && !(mixedMode db api) then
    { calls := [.dbCall "activities"], result := .ok () }
  else
    { calls := [.apiCall "GET" ("activities?user_id=" ++ uid)], result := .ok () }

/-! ## Theorems -/

example : pyUUIDParse "12345678-1234-5678-1234-567812345678" =
    some 0x12345678123456781234567812345678 := by decide

example : pyUUIDParse "urn:uuid:12345678-1234-5678-1234-567812345678" =
    some 0x12345678123456781234567812345678 := by decide

example : pyUUIDParse "my-prompt-key" = none := by decide

example : pyUUIDParse "child" = none := by decide

example : pyUUIDParse "" = none := by decide

example : dbGet [⟨3, "alpha", 0⟩, ⟨5, "beta", 1⟩] "beta" = some ⟨5, "beta", 1⟩ := by decide

example :
    dbGet [⟨0x12345678123456781234567812345678, "alpha", 0⟩]
      "12345678-1234-5678-1234-567812345678" =
    some ⟨0x12345678123456781234567812345678, "alpha", 0⟩ := by decide

/-- C3: for every input string given to the database backend, `get`, `update`
and `delete` first attempt UUID parsing; on success the rows they read,
rewrite or remove are exactly those whose `id` column equals the parsed UUID,
and only when parsing fails do they fall back to comparing the `key` column
with the raw string. -/
theorem c3_db_lookup_dispatch (table : List DBRow) (s : String) (v : Nat) :
    dbGet table s = (match pyUUIDParse s with
      | some u => table.find? (fun r => r.id == u)
      | none => table.find? (fun r => r.key == s)) ∧
    dbUpdate table s v = (match pyUUIDParse s with
      | some u =>
        match (table.map fun r => if r.id == u then { r with val := v } else r).find?
            (fun r => r.id == u) with
        | none => .error (.typeError "cannot convert dictionary update sequence element: argument of type NoneType")
        | some r => .ok (table.map fun r => if r.id == u then { r with val := v } else r, r)
      | none =>
        match (table.map fun r => if r.key == s then { r with val := v } else r).find?
            (fun r => r.key == s) with
        | none => .error (.typeError "cannot convert dictionary update sequence element: argument of type NoneType")
        | some r => .ok (table.map fun r => if r.key == s then { r with val := v } else r, r)) ∧
    dbDelete table s = (match pyUUIDParse s with
      | some u =>
        (table.filter (fun r => !(r.id == u)), decide (0 < (table.filter (fun r => r.id == u)).length))
      | none =>
        (table.filter (fun r => !(r.key == s)), decide (0 < (table.filter (fun r => r.key == s)).length))) := by
  cases hp : pyUUIDParse s with
  | some u =>
    simp only [dbGet, dbUpdate, dbDelete, lookupCond, hp]
    exact ⟨rfl, rfl, rfl⟩
  | none =>
    simp only [dbGet, dbUpdate, dbDelete, lookupCond, hp]
    exact ⟨rfl, rfl, rfl⟩

/-- C7 counterexample: `DatabaseConnection.update` on an id or key matching no
row does not yield a not-found result; it raises (`dict(None)` is a
`TypeError`), refuting "never raises an exception". -/
theorem c7_update_missing_cex :
    dbUpdate [] "no-such-key" 0 =
      .error (.typeError "cannot convert dictionary update sequence element: argument of type NoneType") := rfl

/-- C7 (amended): for a database-backend operation on an id or key matching no
row, `get` returns `None` and `delete` leaves the table unchanged and returns
`False`, neither raising; `update`, however, raises a `TypeError` when it
converts the absent re-fetched row. -/
theorem c7_missing_row_amended (table : List DBRow) (s : String) (v : Nat)
    (h : ∀ r ∈ table, condMatches (lookupCond s) r = false) :
    dbGet table s = none ∧
    dbDelete table s = (table, false) ∧
    dbUpdate table s v =
      .error (.typeError "cannot convert dictionary update sequence element: argument of type NoneType") := by
  have hmap : (table.map fun r => if condMatches (lookupCond s) r then { r with val := v } else r)
      = table := by
    induction table with
    | nil => rfl
    | cons a l ih =>
      have ha := h a (List.mem_cons_self a l)
      simp only [List.map_cons, ha, if_neg Bool.false_ne_true, List.cons.injEq, true_and]
      exact ih fun r hr => h r (List.mem_cons_of_mem a hr)
  refine ⟨?_, ?_, ?_⟩
  · exact List.find?_eq_none.mpr fun r hr => by simp [h r hr]
  · unfold dbDelete
    have h1 : table.filter (fun r => !condMatches (lookupCond s) r) = table :=
      List.filter_eq_self.mpr fun r hr => by simp [h r hr]
    have h2 : table.filter (condMatches (lookupCond s)) = [] :=
      List.filter_eq_nil_iff.mpr fun r hr => by simp [h r hr]
    simp [h1, h2]
  · unfold dbUpdate
    simp only [hmap]
    have : table.find? (condMatches (lookupCond s)) = none :=
      List.find?_eq_none.mpr fun r hr => by simp [h r hr]
    simp [this]

/-- C7 witness: a concrete table with one row and a key that matches nothing. -/
theorem c7_missing_row_witness :
    dbGet [⟨3, "alpha", 0⟩] "nothing" = none ∧
    dbDelete [⟨3, "alpha", 0⟩] "nothing" = ([⟨3, "alpha", 0⟩], false) ∧
    dbUpdate [⟨3, "alpha", 0⟩] "nothing" 7 =
      .error (.typeError "cannot convert dictionary update sequence element: argument of type NoneType") :=
  c7_missing_row_amended [⟨3, "alpha", 0⟩] "nothing" 7 (by decide)

/-- Helper: `find?` skips a prefix on which the predicate is everywhere
false. -/
theorem find_append_of_all_not {α : Type} (p : α → Bool) (l₁ l₂ : List α)
    (h : l₁.all (fun a => !p a) = true) : (l₁ ++ l₂).find? p = l₂.find? p := by
  induction l₁ with
  | nil => rfl
  | cons a l ih =>
    rw [List.all_cons, Bool.and_eq_true] at h
    have ha : p a = false := by simpa using h.1
    rw [List.cons_append, List.find?_cons_of_neg _ (by simp [ha])]
    exact ih h.2

/-- C5 counterexample: a two-member lineage, root (no parent) and child.
`get_versions` on the child returns only the child: the filter
`parent_id == root_id` can never match the root, whose `parent_id` is NULL,
so the result does not include the lineage root. -/
theorem c5_versions_cex :
    getVersionsDb [⟨1, "root", none⟩, ⟨2, "child", some 1⟩] "child" =
      .ok [⟨2, "child", some 1⟩] ∧
    (⟨1, "root", none⟩ : PromptRow) ∉ [(⟨2, "child", some 1⟩ : PromptRow)] := by
  refine ⟨rfl, by decide⟩

/-- C5 (amended): under database mode, `get_versions` on a resolvable prompt
returns exactly the prompts whose `parent_id` equals the lineage root (the
prompt's parent, or the prompt itself when it has none); any parentless
prompt — in particular the lineage root itself — is never part of the
result. -/
theorem c5_versions_amended (table : List PromptRow) (s : String) (p : PromptRow)
    (h : dbGetPrompt table s = some p) :
    ∃ vs, getVersionsDb table s = .ok vs ∧
      (∀ q, q ∈ vs ↔ q ∈ table ∧ q.parent_id = some (p.parent_id.getD p.id)) ∧
      (∀ r, r.parent_id = none → r ∉ vs) := by
  refine ⟨dbListByParent table (p.parent_id.getD p.id), ?_, ?_, ?_⟩
  · unfold getVersionsDb
    rw [h]
  · intro q
    unfold dbListByParent
    rw [List.mem_filter]
    simp
  · intro r hr hmem
    unfold dbListByParent at hmem
    rw [List.mem_filter] at hmem
    rw [hr] at hmem
    simp at hmem

/-- C5 witness: the amended statement evaluated on the concrete two-member
lineage. -/
theorem c5_versions_witness :
    ∃ vs, getVersionsDb [⟨1, "root", none⟩, ⟨2, "child", some 1⟩] "child" = .ok vs ∧
      (∀ q, q ∈ vs ↔ q ∈ [(⟨1, "root", none⟩ : PromptRow), ⟨2, "child", some 1⟩] ∧
        q.parent_id = some ((⟨2, "child", some 1⟩ : PromptRow).parent_id.getD 2)) ∧
      (∀ r, r.parent_id = none → r ∉ vs) :=
  c5_versions_amended [⟨1, "root", none⟩, ⟨2, "child", some 1⟩] "child"
    ⟨2, "child", some 1⟩ (by decide)

/-- C8: under database mode, `create_version` on an existing parentless prompt
resolves it and inserts a new prompt whose `parent_id` is the original
prompt's id, which is also the row it returns; under API mode and under mixed
mode the call goes to the dedicated `prompts/{id}/versions` endpoint. -/
theorem c8_create_version (table : List PromptRow) (s : String) (d : PromptCreateData)
    (p : PromptRow) (freshId : Nat)
    (hget : dbGetPrompt table s = some p) (_hroot : p.parent_id = none)
    (hfresh : table.all (fun r => !(r.id == freshId)) = true) :
    createVersion true false table s d freshId =
      .dbCreated (table ++ [{ id := freshId, key := d.key, parent_id := some p.id }])
        (some { id := freshId, key := d.key, parent_id := some p.id }) ∧
    createVersion true true table s d freshId =
      .apiDelegated ("prompts/" ++ s ++ "/versions") ∧
    createVersion false true table s d freshId =
      .apiDelegated ("prompts/" ++ s ++ "/versions") := by
  refine ⟨?_, rfl, rfl⟩
  unfold createVersion
  simp only [Bool.and_false, Bool.not_true, Bool.or_false, Bool.false_or, if_neg Bool.false_ne_true]
  rw [hget]
  unfold dbCreatePrompt
  have hfind : ((table ++ [({ id := freshId, key := d.key, parent_id := some p.id } : PromptRow)]).find?
      fun r => r.id == freshId) = some { id := freshId, key := d.key, parent_id := some p.id } := by
    rw [find_append_of_all_not _ _ _ hfresh]
    simp [List.find?]
  simp only [hfind]

/-- C8 witness: one parentless prompt, addressed by key, fresh id 2. -/
theorem c8_create_version_witness :
    createVersion true false [⟨1, "root", none⟩] "root" ⟨"root-v2", none⟩ 2 =
      .dbCreated [⟨1, "root", none⟩, { id := 2, key := "root-v2", parent_id := some 1 }]
        (some { id := 2, key := "root-v2", parent_id := some 1 }) ∧
    createVersion true true [⟨1, "root", none⟩] "root" ⟨"root-v2", none⟩ 2 =
      .apiDelegated ("prompts/" ++ "root" ++ "/versions") ∧
    createVersion false true [⟨1, "root", none⟩] "root" ⟨"root-v2", none⟩ 2 =
      .apiDelegated ("prompts/" ++ "root" ++ "/versions") :=
  c8_create_version [⟨1, "root", none⟩] "root" ⟨"root-v2", none⟩ ⟨1, "root", none⟩ 2
    (by decide) rfl (by decide)

/-- C4 counterexample: three concrete responses refute the claim as stated.
`raise_for_status` fires only for statuses 400-599, so a 304 response —
non-2xx — raises no generic API failure and its parsed body is returned; a
2xx response whose body is not valid JSON does raise (the `ValueError` from
`response.json()`); and a 401 response whose body is the JSON array `[1, 2]`
raises an uncaught `AttributeError` from `error_data.get` instead of the
claimed authentication failure. -/
theorem c4_status_cex :
    handleResponse Except.ok ⟨304, some (.jobj []), "", "Not Modified"⟩ = .ok (.jobj []) ∧
    handleResponse Except.ok ⟨200, none, "plain text", "OK"⟩ =
      .error (.jsonDecode "plain text") ∧
    handleResponse Except.ok ⟨401, some (.jarr [.jnum 1, .jnum 2]), "", ""⟩ =
      .error (.attributeErr "list object has no attribute get") :=
  ⟨rfl, rfl, rfl⟩

/-- C4 (amended): whenever the detail extraction succeeds — the body is a
JSON object or is not valid JSON — status 401/403 maps to an authentication
failure, 404 to not-found, 422 to a validation failure, 429 to a rate-limit
failure, and every other status in 400-599 to a generic API failure carrying
the status code and the extracted error detail; when the body is valid JSON
but not an object, the uncaught `AttributeError` from `error_data.get`
replaces the status-mapped error; and statuses outside 400-599 — the 2xx
family, but equally 1xx/3xx — raise no status-mapped error: the body is
JSON-parsed (`ValueError` on a non-JSON body) and handed to the model
conversion, whose outcome, success or its own failure, is returned
unchanged. -/
theorem c4_status_mapping (convert : JsonVal → Except RespErr JsonVal)
    (r : ApiResponse) (d : JsonVal) :
    (errorDetail r = .ok d → r.status = 401 ∨ r.status = 403 →
      handleResponse convert r =
        .error (.authentication (pyOrJson d (.jstr "Authentication failed")))) ∧
    (errorDetail r = .ok d → r.status = 404 →
      handleResponse convert r =
        .error (.notFound (pyOrJson d (.jstr "Resource not found")))) ∧
    (errorDetail r = .ok d → r.status = 422 →
      handleResponse convert r =
        .error (.validation (pyOrJson d (.jstr "Validation error")))) ∧
    (errorDetail r = .ok d → r.status = 429 →
      handleResponse convert r =
        .error (.rateLimit (pyOrJson d (.jstr "Rate limit exceeded")))) ∧
    (errorDetail r = .ok d → 400 ≤ r.status → r.status < 600 →
      r.status ≠ 401 → r.status ≠ 403 → r.status ≠ 404 → r.status ≠ 422 → r.status ≠ 429 →
      handleResponse convert r =
        .error (.apiFailure r.status (pyOrJson d (.jstr r.reason)))) ∧
    (∀ e, errorDetail r = .error e → 400 ≤ r.status → r.status < 600 →
      handleResponse convert r = .error e) ∧
    (¬(400 ≤ r.status ∧ r.status < 600) →
      handleResponse convert r = (match r.jsonBody with
        | none => .error (.jsonDecode r.text)
        | some data => convert data)) := by
  refine ⟨?_, ?_, ?_, ?_, ?_, ?_, ?_⟩
  · intro hd h
    unfold handleResponse
    rw [hd]
    rcases h with h | h <;> rw [h] <;> norm_num
  · intro hd h
    unfold handleResponse
    rw [hd, h]
    norm_num
  · intro hd h
    unfold handleResponse
    rw [hd, h]
    norm_num
  · intro hd h
    unfold handleResponse
    rw [hd, h]
    norm_num
  · intro hd h1 h2 h3 h4 h5 h6 h7
    unfold handleResponse
    rw [if_pos ⟨h1, h2⟩, hd]
    simp [h3, h4, h5, h6, h7]
  · intro e he h1 h2
    unfold handleResponse
    rw [if_pos ⟨h1, h2⟩, he]
  · intro h
    unfold handleResponse
    rw [if_neg h]

/-- C4 witness: each clause of the amended mapping exercised on a concrete
stubbed response, including the escaping `AttributeError` and a successful
2xx conversion. -/
theorem c4_status_mapping_witness :
    handleResponse Except.ok ⟨401, some (.jobj [("detail", .jstr "bad token")]), "", ""⟩ =
      .error (.authentication (.jstr "bad token")) ∧
    handleResponse Except.ok ⟨404, some (.jobj [("message", .jstr "gone")]), "", ""⟩ =
      .error (.notFound (.jstr "gone")) ∧
    handleResponse Except.ok ⟨422, some (.jobj []), "", ""⟩ =
      .error (.validation (.jstr "Validation error")) ∧
    handleResponse Except.ok ⟨429, none, "slow down", ""⟩ =
      .error (.rateLimit (.jstr "slow down")) ∧
    handleResponse Except.ok ⟨500, none, "", "Internal Server Error"⟩ =
      .error (.apiFailure 500 (.jstr "Internal Server Error")) ∧
    handleResponse Except.ok ⟨502, some (.jarr []), "", ""⟩ =
      .error (.attributeErr "list object has no attribute get") ∧
    handleResponse Except.ok ⟨200, some (.jobj [("id", .jstr "1")]), "", "OK"⟩ =
      .ok (.jobj [("id", .jstr "1")]) :=
  ⟨(c4_status_mapping Except.ok ⟨401, some (.jobj [("detail", .jstr "bad token")]), "", ""⟩
      (.jstr "bad token")).1 rfl (Or.inl rfl),
   (c4_status_mapping Except.ok ⟨404, some (.jobj [("message", .jstr "gone")]), "", ""⟩
      (.jstr "gone")).2.1 rfl rfl,
   (c4_status_mapping Except.ok ⟨422, some (.jobj []), "", ""⟩ .jnull).2.2.1 rfl rfl,
   (c4_status_mapping Except.ok ⟨429, none, "slow down", ""⟩
      (.jstr "slow down")).2.2.2.1 rfl rfl,
   (c4_status_mapping Except.ok ⟨500, none, "", "Internal Server Error"⟩
      (.jstr "")).2.2.2.2.1 rfl (by norm_num) (by norm_num) (by norm_num) (by norm_num)
      (by norm_num) (by norm_num) (by norm_num),
   (c4_status_mapping Except.ok ⟨502, some (.jarr []), "", ""⟩ .jnull).2.2.2.2.2.1
      (.attributeErr "list object has no attribute get") rfl (by norm_num) (by norm_num),
   (c4_status_mapping Except.ok ⟨200, some (.jobj [("id", .jstr "1")]), "", "OK"⟩
      .jnull).2.2.2.2.2.2 (by norm_num)⟩


/-- C9: under an API connection, the wrapper re-raises authentication,
validation and not-found failures as the same kind with the operation name in
the message, turns every other exception into a generic API failure, and
never suppresses an error (it never returns normally when the wrapped call
raised). -/
theorem c9_retag (op : String) (body : Except Exc Unit) :
    (∀ m, body = .error (.authentication m) →
      apiWriteOnly true op body =
        .error (.authentication ("Failed to authenticate when performing " ++ op ++ ": " ++ m))) ∧
    (∀ m, body = .error (.validation m) →
      apiWriteOnly true op body =
        .error (.validation ("Invalid data for " ++ op ++ ": " ++ m))) ∧
    (∀ m, body = .error (.notFound m) →
      apiWriteOnly true op body =
        .error (.notFound ("Resource not found in " ++ op ++ ": " ++ m))) ∧
    (∀ e, body = .error e → e.isSpecific = false →
      ∃ m, apiWriteOnly true op body = .error (.apiError m)) ∧
    (∀ e, body = .error e → ∀ v, apiWriteOnly true op body ≠ .ok v) := by
  refine ⟨?_, ?_, ?_, ?_, ?_⟩
  · intro m hb; rw [hb]; rfl
  · intro m hb; rw [hb]; rfl
  · intro m hb; rw [hb]; rfl
  · intro e hb hs
    rw [hb]
    cases e <;> simp [Exc.isSpecific] at hs ⊢ <;> simp [apiWriteOnly, retagExc]
  · intro e hb v
    rw [hb]
    simp [apiWriteOnly]

/-- C9 witness: each clause of the re-tagging exercised at the `create`
operation with concrete wrapped errors. -/
theorem c9_retag_witness :
    apiWriteOnly true "create" (.error (.authentication "401")) =
      .error (.authentication "Failed to authenticate when performing create: 401") ∧
    apiWriteOnly true "create" (.error (.validation "bad field")) =
      .error (.validation "Invalid data for create: bad field") ∧
    apiWriteOnly true "create" (.error (.notFound "missing")) =
      .error (.notFound "Resource not found in create: missing") ∧
    (∃ m, apiWriteOnly true "create" (.error (.rateLimit "429")) = .error (.apiError m)) ∧
    apiWriteOnly true "create" (.error (.rateLimit "429")) ≠ .ok () :=
  ⟨(c9_retag "create" (.error (.authentication "401"))).1 "401" rfl,
   (c9_retag "create" (.error (.validation "bad field"))).2.1 "bad field" rfl,
   (c9_retag "create" (.error (.notFound "missing"))).2.2.1 "missing" rfl,
   (c9_retag "create" (.error (.rateLimit "429"))).2.2.2.1 (.rateLimit "429") rfl rfl,
   (c9_retag "create" (.error (.rateLimit "429"))).2.2.2.2 (.rateLimit "429") rfl ()⟩

/-- C1: with no API connection every write method of Team and User raises the
configuration `ValueError` before touching any backend, in database-only and
in no-database construction alike; with an API connection no method ever
touches the database backend, and every method issues its API call — except
`Teams.remove_member`, whose mis-arity `TypeError` (one argument passed to
`APIConnection.delete`, which needs two) aborts the call before the API
backend runs and surfaces as a re-tagged generic API failure. -/
theorem c1_write_thru_eval :
    ([false, true].all fun dbp => wtMethods.all fun m =>
      decide (wtRun m dbp false "t1" "u1" =
        { calls := [], result := .error (.valueError (apiRequiredMsg (wtOpName m))) })) = true ∧
    ([false, true].all fun dbp => wtMethods.all fun m =>
      (wtRun m dbp true "t1" "u1").calls.all BackendCall.isApi) = true ∧
    ([false, true].all fun dbp => wtMethods.all fun m =>
      decide (((wtRun m dbp true "t1" "u1").calls = []) ↔ m = .tRemoveMember)) = true ∧
    wtRun .tRemoveMember true true "t1" "u1" =
      { calls := [],
        result := .error (.apiError
          "Unexpected error during remove_member: delete() missing 1 required positional argument: resource_id") } := by
  refine ⟨by decide, by decide, by decide, rfl⟩

/-- C2 counterexample: in mixed mode, `Activities.create` and
`Activities.update` reach neither backend — the inherited methods call the
undefined (`None`) create/update model class and raise a `TypeError` before
routing — so they do not delegate to the API connection. -/
theorem c2_activity_write_cex :
    stdCreateRun .activities true true =
      { calls := [], result := .error (.typeError "NoneType object is not callable") } ∧
    stdUpdateRun .activities true true "a1" =
      { calls := [], result := .error (.typeError "NoneType object is not callable") } :=
  ⟨rfl, rfl⟩

/-- C2 (amended): in mixed mode without a `force_api` override, `list` and
`get` route to the database for all three standard resources; `create`,
`update` and `delete` delegate to the API for Project and Prompt, as does
`delete` for Activity, while `Activity.create` and `Activity.update` raise a
`TypeError` (no create/update model class is defined) and reach no backend. -/
theorem c2_std_mixed_amended (rid : String) :
    listRoute true true false = .dbR ∧
    getRoute true true false = .dbR ∧
    stdCreateRun .projects true true =
      { calls := [.apiCall "POST" "projects"], result := .ok () } ∧
    stdUpdateRun .projects true true rid =
      { calls := [.apiCall "PUT" ("projects/" ++ rid)], result := .ok () } ∧
    stdDeleteRun .projects true true rid =
      { calls := [.apiCall "DELETE" ("projects/" ++ rid)], result := .ok () } ∧
    stdCreateRun .prompts true true =
      { calls := [.apiCall "POST" "prompts"], result := .ok () } ∧
    stdUpdateRun .prompts true true rid =
      { calls := [.apiCall "PUT" ("prompts/" ++ rid)], result := .ok () } ∧
    stdDeleteRun .prompts true true rid =
      { calls := [.apiCall "DELETE" ("prompts/" ++ rid)], result := .ok () } ∧
    stdDeleteRun .activities true true rid =
      { calls := [.apiCall "DELETE" ("activities/" ++ rid)], result := .ok () } ∧
    stdCreateRun .activities true true =
      { calls := [], result := .error (.typeError "NoneType object is not callable") } ∧
    stdUpdateRun .activities true true rid =
      { calls := [], result := .error (.typeError "NoneType object is not callable") } :=
  ⟨rfl, rfl, rfl, rfl, rfl, rfl, rfl, rfl, rfl, rfl, rfl⟩

/-- C6 counterexample: in mixed mode the resource-specific read extensions
query the API backend, not the database: `Projects.get_prompts` and
`Teams.get_members` issue a GET and no database call. -/
theorem c6_ext_reads_cex :
    projectsGetPromptsRun true true "p1" =
      { calls := [.apiCall "GET" "projects/p1/prompts"], result := .ok () } ∧
    (projectsGetPromptsRun true true "p1").calls.all BackendCall.isDb = false ∧
    teamsGetMembersRun true true "t1" =
      { calls := [.apiCall "GET" "teams/t1/members"], result := .ok () } := by
  refine ⟨rfl, by decide, rfl⟩

/-- C6 (amended): in mixed mode the plain `list`/`get` reads query the
database backend, but every resource-specific read extension
(`get_prompts`, `get_versions`, `get_members`, `get_teams`, `list_for_user`)
queries the API backend; the extensions use the database only in
pure-database mode. -/
theorem c6_ext_reads_amended (pid tid uid : String) :
    listRoute true true false = .dbR ∧
    getRoute true true false = .dbR ∧
    projectsGetPromptsRun true true pid =
      { calls := [.apiCall "GET" ("projects/" ++ pid ++ "/prompts")], result := .ok () } ∧
    promptsGetVersionsRun true true pid =
      { calls := [.apiCall "GET" ("prompts/" ++ pid ++ "/versions")], result := .ok () } ∧
    teamsGetMembersRun true true tid =
      { calls := [.apiCall "GET" ("teams/" ++ tid ++ "/members")], result := .ok () } ∧
    usersGetTeamsRun true true uid =
      { calls := [.apiCall "GET" ("users/" ++ uid ++ "/teams")], result := .ok () } ∧
    activitiesListForUserRun true true uid =
      { calls := [.apiCall "GET" ("activities?user_id=" ++ uid)], result := .ok () } ∧
    projectsGetPromptsRun true false pid =
      { calls := [.dbCall "prompts"], result := .ok () } ∧
    promptsGetVersionsRun true false pid =
      { calls := [.dbCall "prompts", .dbCall "prompts"], result := .ok () } ∧
    teamsGetMembersRun true false tid =
      { calls := [.dbCall "users JOIN team_members"], result := .ok () } ∧
    usersGetTeamsRun true false uid =
      { calls := [.dbCall "teams JOIN team_members"], result := .ok () } ∧
    activitiesListForUserRun true false uid =
      { calls := [.dbCall "activities"], result := .ok () } :=
  ⟨rfl, rfl, rfl, rfl, rfl, rfl, rfl, rfl, rfl, rfl, rfl, rfl⟩

/-- C10: the `force_api` override changes `list`/`get` routing only in mixed
mode: with a database connection and no API connection the reads stay on the
database whatever `force_api` is; with both connections, `force_api=True`
sends them to the API and `force_api=False` keeps them on the database (with
only an API connection they go to the API regardless). -/
theorem c10_force_api (forceApi : Bool) :
    listRoute true false forceApi = .dbR ∧
    getRoute true false forceApi = .dbR ∧
    listRoute true true true = .apiR ∧
    getRoute true true true = .apiR ∧
    listRoute true true false = .dbR ∧
    getRoute true true false = .dbR ∧
    listRoute false true forceApi = .apiR ∧
    getRoute false true forceApi = .apiR := by
  cases forceApi <;> exact ⟨rfl, rfl, rfl, rfl, rfl, rfl, rfl, rfl⟩
